import Mathlib

/-!
Verification of the `GitDockerfileChangeHandler` from
`src/freshmaker/handlers/git/dockerfile_change.py`.

The handler is embedded shallowly: the three external collaborators
(policy checker `allow_build`, build trigger `build_container`, record
store `record_build`) are abstracted as a `Behavior` record of functions
that either return a value or raise an exception (`Except Exc _`).
`handle` threads an explicit `Effects` record of observable side effects
(log emissions, trigger calls, record calls) and returns either the list
of follow-on events or a propagated exception.
-/

namespace Freshmaker

/-- Modelled from the spec: the broader event type space (the module
`freshmaker.events` is not part of the fragment).  The
container/Dockerfile-change variant `gitDockerfileChange` carries the
`container`, `branch` and `rev` attributes read by the handler; the other
constructors stand for every other concrete event type of the system
(the spec calls for a tagged union over known event kinds). -/
inductive Event where
  | gitDockerfileChange (container : String) (branch : String) (rev : String)
  | gitRPMSpecChange (repo : String) (branch : String) (rev : String)
  | otherEvent (tag : String)
deriving DecidableEq, Repr

/-- Exceptions observable in the handler.  `krb5 args` is
`koji.krbV.Krb5Error` with its argument payload; `other` is any other
exception a collaborator may raise; `indexError` is the failure of the
`e.args[1]` access on a short payload; `attributeError` is the failure of
reading `event.container` on an event that lacks the attribute. -/
inductive Exc where
  | krb5 (args : List String)
  | other (detail : String)
  | indexError
  | attributeError
deriving DecidableEq, Repr

/-- Log emissions of the handler, one constructor per log statement of the
source, carrying the formatting arguments.
`startRebuild c` is the info log at the top of `handle`;
`skipRebuild c b` the info log of the policy-denied branch;
`krbFailure d` the exception log of the `Krb5Error` clause, `d` being
`e.args[1]`; `genericFailure c` the exception log of the bare catch-all
clause. -/
inductive LogEntry where
  | startRebuild (container : String)
  | skipRebuild (container : String) (branch : String)
  | krbFailure (detail : String)
  | genericFailure (container : String)
deriving DecidableEq, Repr

/-- The behavior of the three external collaborators during one
invocation: `allow_build artifactType name branch`, `build_container name
branch rev` (returning an optional task id), and
`record_build event name artifactType taskId`. -/
structure Behavior where
  allow_build : String → String → String → Except Exc Bool
  build_container : String → String → String → Except Exc (Option Nat)
  record_build : Event → String → String → Nat → Except Exc Unit

/-- Observable side effects of one `handle` invocation: log emissions,
calls made to the build trigger, and calls made to the record store. -/
structure Effects where
  logs : List LogEntry
  triggerCalls : List (String × String × String)
  recordCalls : List (Event × String × String × Nat)
deriving DecidableEq, Repr

/-- The two `except` clauses of `handle`.  A `Krb5Error` is logged with
`e.args[1]` — an access that itself raises `IndexError` when the payload
has fewer than two elements, and that `IndexError`, raised inside the
handler clause, propagates out of `handle`.  Any other exception falls to
the bare catch-all clause and is logged generically.  Both clauses fall
through to the final `return []`. -/
def catchClauses (logs : List LogEntry) (tcs : List (String × String × String))
    (rcs : List (Event × String × String × Nat)) (container : String) (e : Exc) :
    Effects × Except Exc (List Event) :=
  match e with
  | Exc.krb5 args =>
      match args[1]? with
      | some detail => (⟨logs ++ [LogEntry.krbFailure detail], tcs, rcs⟩, Except.ok [])
      | none => (⟨logs, tcs, rcs⟩, Except.error Exc.indexError)
  | _ => (⟨logs ++ [LogEntry.genericFailure container], tcs, rcs⟩, Except.ok [])

/-- `GitDockerfileChangeHandler.can_handle`: an `isinstance` test against
`GitDockerfileChangeEvent`. -/
def can_handle (event : Event) : Bool :=
  match event with
  | Event.gitDockerfileChange _ _ _ => true
  | _ => false

/-- `GitDockerfileChangeHandler.handle`.  Mirrors the source line by
line: the start log and the `allow_build` call happen outside the `try`
block (an exception there propagates); the `try` block covers the
`build_container` call and, when the task id is not `None`, the
`record_build` call; the two `except` clauses are `catchClauses`.  On an
event that is not a `GitDockerfileChangeEvent` the attribute access
`event.container` fails. -/
def handle (bhv : Behavior) : Event → Effects × Except Exc (List Event)
  | ev@(Event.gitDockerfileChange container branch rev) =>
    let logs0 := [LogEntry.startRebuild container]
    match bhv.allow_build "image" container branch with
    | Except.error e => (⟨logs0, [], []⟩, Except.error e)
    | Except.ok false =>
        (⟨logs0 ++ [LogEntry.skipRebuild container branch], [], []⟩, Except.ok [])
    | Except.ok true =>
        match bhv.build_container container branch rev with
        | Except.error e => catchClauses logs0 [(container, branch, rev)] [] container e
        | Except.ok none => (⟨logs0, [(container, branch, rev)], []⟩, Except.ok [])
        | Except.ok (some task_id) =>
            match bhv.record_build ev container "image" task_id with
            | Except.error e =>
                catchClauses logs0 [(container, branch, rev)]
                  [(ev, container, "image", task_id)] container e
            | Except.ok _ =>
                (⟨logs0, [(container, branch, rev)], [(ev, container, "image", task_id)]⟩,
                  Except.ok [])
  | _ => (⟨[], [], []⟩, Except.error Exc.attributeError)

/-- A behavior in which every collaborator succeeds: policy allows, the
trigger returns task id 42, recording succeeds. -/
def bhvAllowSome : Behavior :=
  ⟨fun _ _ _ => Except.ok true, fun _ _ _ => Except.ok (some 42), fun _ _ _ _ => Except.ok ()⟩

/-- A behavior in which the policy denies the build. -/
def bhvDeny : Behavior :=
  ⟨fun _ _ _ => Except.ok false, fun _ _ _ => Except.ok (some 42), fun _ _ _ _ => Except.ok ()⟩

/-- A behavior in which the policy allows and the trigger declines to
schedule a build (returns null). -/
def bhvAllowNone : Behavior :=
  ⟨fun _ _ _ => Except.ok true, fun _ _ _ => Except.ok none, fun _ _ _ _ => Except.ok ()⟩

/-- The sample event of the spec scenarios. -/
def ev0 : Event := Event.gitDockerfileChange "my-image" "rhel-8" "abc123"

/-- A behavior in which the policy allows and the build trigger raises the
credential failure with a well-formed two-element payload. -/
def bhvKrb : Behavior :=
  ⟨fun _ _ _ => Except.ok true,
   fun _ _ _ => Except.error (Exc.krb5 ["krbV error", "Ticket expired"]),
   fun _ _ _ _ => Except.ok ()⟩

/-- A behavior in which the policy allows and the build trigger raises the
credential failure with an empty payload. -/
def bhvKrbShort : Behavior :=
  ⟨fun _ _ _ => Except.ok true,
   fun _ _ _ => Except.error (Exc.krb5 []),
   fun _ _ _ _ => Except.ok ()⟩

/-- A behavior in which the policy allows and the build trigger raises a
non-credential exception. -/
def bhvOther : Behavior :=
  ⟨fun _ _ _ => Except.ok true,
   fun _ _ _ => Except.error (Exc.other "network timeout"),
   fun _ _ _ _ => Except.ok ()⟩

/-- A behavior in which the policy checker itself raises. -/
def bhvPolicyRaise : Behavior :=
  ⟨fun _ _ _ => Except.error (Exc.other "policy backend down"),
   fun _ _ _ => Except.ok none,
   fun _ _ _ _ => Except.ok ()⟩

/-- A behavior in which recording raises a non-credential exception. -/
def bhvRecordFail : Behavior :=
  ⟨fun _ _ _ => Except.ok true,
   fun _ _ _ => Except.ok (some 42),
   fun _ _ _ _ => Except.error (Exc.other "db error")⟩

/-- A behavior in which recording raises the credential-failure exception
type itself. -/
def bhvRecordKrb : Behavior :=
  ⟨fun _ _ _ => Except.ok true,
   fun _ _ _ => Except.ok (some 42),
   fun _ _ _ _ => Except.error (Exc.krb5 ["krbV error", "Ticket expired"])⟩

/-- Helper: the except clauses return the empty list whenever they return
at all. -/
theorem catchClauses_ok_imp_nil (logs : List LogEntry) (tcs : List (String × String × String))
    (rcs : List (Event × String × String × Nat)) (c : String) (e : Exc) (l : List Event)
    (h : (catchClauses logs tcs rcs c e).2 = Except.ok l) : l = [] := by
  cases e with
  | krb5 args =>
      cases hg : args[1]? with
      | none => simp [catchClauses, hg] at h
      | some d => simp [catchClauses, hg] at h; exact h
  | other d => simp [catchClauses] at h; exact h
  | indexError => simp [catchClauses] at h; exact h
  | attributeError => simp [catchClauses] at h; exact h

/-- Helper: the except clauses return normally with the empty list for any
exception that is not a credential failure with a short payload. -/
theorem catchClauses_snd_ok (logs : List LogEntry) (tcs : List (String × String × String))
    (rcs : List (Event × String × String × Nat)) (c : String) (e : Exc)
    (h : ∀ args, e = Exc.krb5 args → 2 ≤ args.length) :
    (catchClauses logs tcs rcs c e).2 = Except.ok [] := by
  cases e with
  | krb5 args =>
      have h1 : 1 < args.length := h args rfl
      simp [catchClauses, List.getElem?_eq_getElem h1]
  | other d => simp [catchClauses]
  | indexError => simp [catchClauses]
  | attributeError => simp [catchClauses]

/-- C3: if the policy check returns disallow, `handle` makes no call to
the build trigger and no call to the build-record store, logs the skip,
and returns an empty sequence. -/
theorem C3_policy_denied (bhv : Behavior) (c b r : String)
    (hp : bhv.allow_build "image" c b = Except.ok false) :
    (handle bhv (Event.gitDockerfileChange c b r)).1.triggerCalls = [] ∧
    (handle bhv (Event.gitDockerfileChange c b r)).1.recordCalls = [] ∧
    (handle bhv (Event.gitDockerfileChange c b r)).2 = Except.ok [] := by
  simp [handle, hp]

/-- C3 witness: the policy-denied behavior at the sample event. -/
theorem C3_policy_denied_witness :
    (handle bhvDeny ev0).1.triggerCalls = [] ∧
    (handle bhvDeny ev0).1.recordCalls = [] ∧
    (handle bhvDeny ev0).2 = Except.ok [] :=
  C3_policy_denied bhvDeny "my-image" "rhel-8" "abc123" rfl

/-- C4: if the policy check returns allow and the build trigger returns a
non-null task reference, `handle` calls the build-record store exactly
once with the event, the artifact identifier, the artifact type image and
that task reference, and returns an empty sequence (the record store
succeeding, as the spec assumes of it). -/
theorem C4_allow_nonnull_records (bhv : Behavior) (c b r : String) (tid : Nat)
    (hp : bhv.allow_build "image" c b = Except.ok true)
    (ht : bhv.build_container c b r = Except.ok (some tid))
    (hr : bhv.record_build (Event.gitDockerfileChange c b r) c "image" tid = Except.ok ()) :
    (handle bhv (Event.gitDockerfileChange c b r)).1.recordCalls =
      [(Event.gitDockerfileChange c b r, c, "image", tid)] ∧
    (handle bhv (Event.gitDockerfileChange c b r)).2 = Except.ok [] := by
  simp [handle, hp, ht, hr]

/-- C4 witness: the all-succeeding behavior at the sample event, task 42. -/
theorem C4_allow_nonnull_records_witness :
    (handle bhvAllowSome ev0).1.recordCalls = [(ev0, "my-image", "image", 42)] ∧
    (handle bhvAllowSome ev0).2 = Except.ok [] :=
  C4_allow_nonnull_records bhvAllowSome "my-image" "rhel-8" "abc123" 42 rfl rfl rfl

/-- C2: when no collaborator raises, the record store is called iff the
build trigger was called and returned a non-null task reference; in
particular a null task reference means no record call and an empty
sequence returned. -/
theorem C2_record_iff_nonnull (bhv : Behavior) (c b r : String) (d : Bool) (t : Option Nat)
    (hp : bhv.allow_build "image" c b = Except.ok d)
    (ht : bhv.build_container c b r = Except.ok t)
    (hr : ∀ tid, bhv.record_build (Event.gitDockerfileChange c b r) c "image" tid =
      Except.ok ()) :
    ((handle bhv (Event.gitDockerfileChange c b r)).1.recordCalls ≠ [] ↔
      (handle bhv (Event.gitDockerfileChange c b r)).1.triggerCalls ≠ [] ∧ t ≠ none) ∧
    (t = none →
      (handle bhv (Event.gitDockerfileChange c b r)).1.recordCalls = [] ∧
      (handle bhv (Event.gitDockerfileChange c b r)).2 = Except.ok []) := by
  cases d with
  | false => simp [handle, hp]
  | true =>
      cases t with
      | none => simp [handle, hp, ht]
      | some tid => simp [handle, hp, ht, hr tid]

/-- C2 witness: the allow-with-null-task behavior at the sample event. -/
theorem C2_record_iff_nonnull_witness :
    ((handle bhvAllowNone ev0).1.recordCalls ≠ [] ↔
      (handle bhvAllowNone ev0).1.triggerCalls ≠ [] ∧ (none : Option Nat) ≠ none) ∧
    ((none : Option Nat) = none →
      (handle bhvAllowNone ev0).1.recordCalls = [] ∧
      (handle bhvAllowNone ev0).2 = Except.ok []) :=
  C2_record_iff_nonnull bhvAllowNone "my-image" "rhel-8" "abc123" true none rfl rfl
    (fun _ => rfl)

/-- C5: if the build trigger raises the credential failure (whose payload,
as the collaborator contract states, exposes the secondary detail field,
so it has at least two elements), `handle` does not propagate it, logs the
distinguished message with that secondary field, and returns an empty
sequence. -/
theorem C5_krb5_caught (bhv : Behavior) (c b r : String) (args : List String)
    (hp : bhv.allow_build "image" c b = Except.ok true)
    (ht : bhv.build_container c b r = Except.error (Exc.krb5 args))
    (hlen : 2 ≤ args.length) :
    (handle bhv (Event.gitDockerfileChange c b r)).2 = Except.ok [] ∧
    (handle bhv (Event.gitDockerfileChange c b r)).1.logs =
      [LogEntry.startRebuild c, LogEntry.krbFailure (args.getD 1 "")] := by
  have h1 : 1 < args.length := hlen
  simp [handle, hp, ht, catchClauses, List.getElem?_eq_getElem h1,
    List.getD_eq_getElem?_getD]

/-- C5 witness: the credential-failure behavior with a two-element payload
at the sample event. -/
theorem C5_krb5_caught_witness :
    2 ≤ (["krbV error", "Ticket expired"] : List String).length ∧
    ((handle bhvKrb ev0).2 = Except.ok [] ∧
     (handle bhvKrb ev0).1.logs =
       [LogEntry.startRebuild "my-image",
        LogEntry.krbFailure ((["krbV error", "Ticket expired"] : List String).getD 1 "")]) :=
  ⟨by decide,
   C5_krb5_caught bhvKrb "my-image" "rhel-8" "abc123" ["krbV error", "Ticket expired"]
     rfl rfl (by decide)⟩

/-- C6: if the build trigger raises any exception other than the
credential failure, `handle` does not propagate it, logs the generic
failure message, and returns an empty sequence. -/
theorem C6_other_caught (bhv : Behavior) (c b r : String) (e : Exc)
    (hp : bhv.allow_build "image" c b = Except.ok true)
    (ht : bhv.build_container c b r = Except.error e)
    (hk : ∀ args, e ≠ Exc.krb5 args) :
    (handle bhv (Event.gitDockerfileChange c b r)).2 = Except.ok [] ∧
    (handle bhv (Event.gitDockerfileChange c b r)).1.logs =
      [LogEntry.startRebuild c, LogEntry.genericFailure c] := by
  cases e with
  | krb5 args => exact absurd rfl (hk args)
  | other d => simp [handle, hp, ht, catchClauses]
  | indexError => simp [handle, hp, ht, catchClauses]
  | attributeError => simp [handle, hp, ht, catchClauses]

/-- C6 witness: the non-credential trigger failure at the sample event. -/
theorem C6_other_caught_witness :
    (handle bhvOther ev0).2 = Except.ok [] ∧
    (handle bhvOther ev0).1.logs =
      [LogEntry.startRebuild "my-image", LogEntry.genericFailure "my-image"] :=
  C6_other_caught bhvOther "my-image" "rhel-8" "abc123" (Exc.other "network timeout")
    rfl rfl (fun _ h => Exc.noConfusion h)

/-- C7: `can_handle` returns true exactly when the event is of the
container/Dockerfile-change concrete type, whatever its field values. -/
theorem C7_can_handle_iff (ev : Event) :
    can_handle ev = true ↔ ∃ c b r, ev = Event.gitDockerfileChange c b r := by
  cases ev with
  | gitDockerfileChange c b r =>
      simp only [can_handle, true_iff]
      exact ⟨c, b, r, rfl⟩
  | gitRPMSpecChange a b r => simp [can_handle]
  | otherEvent t => simp [can_handle]

/-- C7 witness: `can_handle` at the sample event. -/
theorem C7_can_handle_iff_witness :
    can_handle (Event.gitDockerfileChange "my-image" "rhel-8" "abc123") = true :=
  (C7_can_handle_iff (Event.gitDockerfileChange "my-image" "rhel-8" "abc123")).mpr
    ⟨"my-image", "rhel-8", "abc123", rfl⟩

/-- C8: for every behavior of the collaborators and every event, whenever
`handle` returns (rather than propagating an exception), the returned
value is the empty sequence of follow-on events. -/
theorem C8_returns_empty (bhv : Behavior) (ev : Event) (l : List Event)
    (h : (handle bhv ev).2 = Except.ok l) : l = [] := by
  cases ev with
  | gitRPMSpecChange a b r => simp [handle] at h
  | otherEvent t => simp [handle] at h
  | gitDockerfileChange container branch rev =>
      cases hp : bhv.allow_build "image" container branch with
      | error e => simp [handle, hp] at h
      | ok d =>
          cases d with
          | false => simp [handle, hp] at h; exact h
          | true =>
              cases hb : bhv.build_container container branch rev with
              | error e =>
                  simp only [handle, hp, hb] at h
                  exact catchClauses_ok_imp_nil _ _ _ _ _ _ h
              | ok t =>
                  cases t with
                  | none => simp [handle, hp, hb] at h; exact h
                  | some tid =>
                      cases hrec : bhv.record_build
                          (Event.gitDockerfileChange container branch rev)
                          container "image" tid with
                      | error e =>
                          simp only [handle, hp, hb, hrec] at h
                          exact catchClauses_ok_imp_nil _ _ _ _ _ _ h
                      | ok u => simp [handle, hp, hb, hrec] at h; exact h

/-- C8 witness: the all-succeeding behavior at the sample event. -/
theorem C8_returns_empty_witness : ([] : List Event) = [] :=
  C8_returns_empty bhvAllowSome ev0 [] rfl

/-- C10: if the build trigger raises the credential failure with a payload
of fewer than two elements, the access to the secondary field inside the
credential clause itself fails, and `handle` propagates that failure
instead of completing the branch normally. -/
theorem C10_short_payload_propagates (bhv : Behavior) (c b r : String) (args : List String)
    (hp : bhv.allow_build "image" c b = Except.ok true)
    (ht : bhv.build_container c b r = Except.error (Exc.krb5 args))
    (hlen : args.length < 2) :
    (handle bhv (Event.gitDockerfileChange c b r)).2 = Except.error Exc.indexError := by
  have hg : args[1]? = none := by
    apply List.getElem?_eq_none
    omega
  simp [handle, hp, ht, catchClauses, hg]

/-- C10 witness: the credential failure with an empty payload at the
sample event. -/
theorem C10_short_payload_propagates_witness :
    ([] : List String).length < 2 ∧
    (handle bhvKrbShort ev0).2 = Except.error Exc.indexError :=
  ⟨by decide,
   C10_short_payload_propagates bhvKrbShort "my-image" "rhel-8" "abc123" [] rfl rfl
     (by decide)⟩

/-- C1 counterexample: the policy query happens outside the protected
region of `handle`, so a failure raised by the policy checker propagates
to the caller, contradicting the claim that every collaborator failure
during the policy query is caught. -/
theorem C1_counterexample :
    (handle bhvPolicyRaise ev0).2 = Except.error (Exc.other "policy backend down") := rfl

/-- C1 amended: any failure raised by the build trigger or the record
store during the trigger call or the recording is caught inside `handle`,
which then returns normally with the empty sequence — except a credential
failure whose payload has fewer than two elements; a failure raised by the
policy checker during the policy query is not caught and propagates. -/
theorem C1_amended_no_propagation (bhv : Behavior) (c b r : String) (d : Bool)
    (hp : bhv.allow_build "image" c b = Except.ok d)
    (ht : ∀ args, bhv.build_container c b r = Except.error (Exc.krb5 args) →
      2 ≤ args.length)
    (hr : ∀ tid args,
      bhv.record_build (Event.gitDockerfileChange c b r) c "image" tid =
        Except.error (Exc.krb5 args) → 2 ≤ args.length) :
    (handle bhv (Event.gitDockerfileChange c b r)).2 = Except.ok [] := by
  cases d with
  | false => simp [handle, hp]
  | true =>
      cases hb : bhv.build_container c b r with
      | error e =>
          simp only [handle, hp, hb]
          exact catchClauses_snd_ok _ _ _ _ _ (fun args ha => ht args (ha ▸ hb))
      | ok t =>
          cases t with
          | none => simp [handle, hp, hb]
          | some tid =>
              cases hrec : bhv.record_build (Event.gitDockerfileChange c b r) c "image" tid with
              | error e =>
                  simp only [handle, hp, hb, hrec]
                  exact catchClauses_snd_ok _ _ _ _ _
                    (fun args ha => hr tid args (ha ▸ hrec))
              | ok u => simp [handle, hp, hb, hrec]

/-- C1 amended witness: a credential trigger failure with a well-formed
payload is caught and `handle` returns the empty sequence. -/
theorem C1_amended_no_propagation_witness :
    (handle bhvKrb ev0).2 = Except.ok [] :=
  C1_amended_no_propagation bhvKrb "my-image" "rhel-8" "abc123" true rfl
    (fun args h => by
      have hargs : (["krbV error", "Ticket expired"] : List String) = args := by
        injection h with h1
        injection h1
      rw [← hargs]
      decide)
    (fun tid args h => by cases h)

/-- C9 counterexample: a credential-failure exception raised by the record
store is caught by the credential clause, which logs the distinguished
message, not the generic one — the except clauses select on exception
type, not on which call raised. -/
theorem C9_counterexample :
    (handle bhvRecordKrb ev0).1.recordCalls = [(ev0, "my-image", "image", 42)] ∧
    (handle bhvRecordKrb ev0).1.logs =
      [LogEntry.startRebuild "my-image", LogEntry.krbFailure "Ticket expired"] ∧
    LogEntry.genericFailure "my-image" ∉ (handle bhvRecordKrb ev0).1.logs := by
  refine ⟨rfl, rfl, ?_⟩
  decide

/-- C9 amended: if the record store raises an exception other than the
credential failure, `handle` catches it in the generic catch-all clause,
logs the generic failure message, and returns an empty sequence. -/
theorem C9_amended_record_failure (bhv : Behavior) (c b r : String) (tid : Nat) (e : Exc)
    (hp : bhv.allow_build "image" c b = Except.ok true)
    (ht : bhv.build_container c b r = Except.ok (some tid))
    (hrec : bhv.record_build (Event.gitDockerfileChange c b r) c "image" tid =
      Except.error e)
    (hk : ∀ args, e ≠ Exc.krb5 args) :
    (handle bhv (Event.gitDockerfileChange c b r)).2 = Except.ok [] ∧
    (handle bhv (Event.gitDockerfileChange c b r)).1.logs =
      [LogEntry.startRebuild c, LogEntry.genericFailure c] := by
  cases e with
  | krb5 args => exact absurd rfl (hk args)
  | other detail => simp [handle, hp, ht, hrec, catchClauses]
  | indexError => simp [handle, hp, ht, hrec, catchClauses]
  | attributeError => simp [handle, hp, ht, hrec, catchClauses]

/-- C9 amended witness: the non-credential record-store failure at the
sample event. -/
theorem C9_amended_record_failure_witness :
    (handle bhvRecordFail ev0).2 = Except.ok [] ∧
    (handle bhvRecordFail ev0).1.logs =
      [LogEntry.startRebuild "my-image", LogEntry.genericFailure "my-image"] :=
  C9_amended_record_failure bhvRecordFail "my-image" "rhel-8" "abc123" 42
    (Exc.other "db error") rfl rfl rfl (fun _ h => Exc.noConfusion h)

end Freshmaker
